import Mathlib

/-!
Shallow embedding of the judger-rs sandbox supervisor (src/runner.rs,
src/child.rs, src/error.rs, src/seccomp.rs, Config::check from src/lib.rs)
and proofs about its verdict classification, configuration validation,
child-setup behaviour and seccomp policy.

Machine integers (`i32`, `i64`, `u64`) are modelled as `Int`/`Nat`; the one
place the source truncates to `i32` (the cpu-time computation in runner.rs)
is modelled explicitly via `toI32`.  Rust's integer division truncates
toward zero, which on `Int` is `Int.tdiv`.  Rust `String` values are
modelled as byte lists (`List Nat`) where the byte content matters (the
`CString` conversions in child.rs), and as `String` elsewhere.
-/

namespace Judger

/-- Two's-complement truncation of an integer to `i32`, as performed by
Rust's `as i32` cast. -/
def toI32 (x : Int) : Int :=
  (x + 2 ^ 31) % 2 ^ 32 - 2 ^ 31

/-- Type `ErrorCode` from src/error.rs: the verdict / error taxonomy stored in
`RunResult.result`.  `WrongAnswer` carries the interactor's message. -/
inductive ErrorCode where
  | Success
  | InvalidConfig
  | ForkFailed
  | CompileError
  | WaitFailed
  | RootRequired
  | LoadSeccompFailed
  | SetrlimitFailed
  | Dup2Failed
  | SetuidFailed
  | ExecveFailed
  | SpjError
  | SystemError
  | CpuTimeLimitExceeded
  | RealTimeLimitExceeded
  | MemoryLimitExceeded
  | RuntimeError
  | WrongAnswer (msg : String)
  deriving DecidableEq, Repr

/-- Function `ErrorCode::to_i32` from src/error.rs. -/
def ErrorCode.to_i32 : ErrorCode → Int
  | .Success => 0
  | .InvalidConfig => -1
  | .ForkFailed => -2
  | .CompileError => -3
  | .WaitFailed => -4
  | .RootRequired => -5
  | .LoadSeccompFailed => -6
  | .SetrlimitFailed => -7
  | .Dup2Failed => -8
  | .SetuidFailed => -9
  | .ExecveFailed => -10
  | .SpjError => -11
  | .SystemError => -12
  | .CpuTimeLimitExceeded => 1
  | .RealTimeLimitExceeded => 2
  | .MemoryLimitExceeded => 3
  | .RuntimeError => 4
  | .WrongAnswer _ => 5

/-- Seccomp rule names from src/seccomp.rs.  The second variant is called
`CCppFileIO` in the source (C/C++ rules with file writing allowed); it is
renamed here for lexical reasons only. -/
inductive SeccompRuleName where
  | CCpp
  | CCppFileWrite
  | Golang
  | Node
  | General
  deriving DecidableEq, Repr

/-- Structure `Config` from src/lib.rs: the run configuration.  `exe_path`, `args`
and `env` are byte strings (Rust `String` contents) because child.rs
converts them to `CString`s, which is sensitive to interior NUL bytes. -/
structure Config where
  max_cpu_time : Int
  max_real_time : Int
  max_memory : Int
  max_stack : Int
  max_process_number : Int
  max_output_size : Int
  exe_path : List Nat
  input_path : String
  output_path : String
  error_path : String
  args : List (List Nat)
  env : List (List Nat)
  log_path : String
  seccomp_rule_name : Option SeccompRuleName
  uid : Nat
  gid : Nat
  deriving DecidableEq, Repr

/-- Validator `Config::check` from src/lib.rs lines 44-51. -/
def Config.check (c : Config) : Bool :=
  ! ((decide (c.max_cpu_time < 1) && decide (c.max_cpu_time ≠ -1)) ||
     (decide (c.max_real_time < 1) && decide (c.max_real_time ≠ -1)) ||
     (decide (c.max_stack < 1)) ||
     (decide (c.max_memory < 1) && decide (c.max_memory ≠ -1)) ||
     (decide (c.max_process_number < 1) && decide (c.max_process_number ≠ -1)) ||
     (decide (c.max_output_size < 1) && decide (c.max_output_size ≠ -1)))

/-- Linux signal numbers used by runner.rs (x86-64). -/
def SIGUSR1 : Int := 10

def SIGSEGV : Int := 11

/-- The parts of the `wait4` status word that runner.rs inspects. -/
structure WaitStatus where
  wifsignaled : Bool
  wtermsig : Int
  wexitstatus : Int
  deriving DecidableEq, Repr

/-- The fields of `struct rusage` read by runner.rs. -/
structure Rusage where
  ru_utime_sec : Int
  ru_utime_usec : Int
  ru_maxrss : Int
  deriving DecidableEq, Repr

/-- The environment of one run: everything outside the supervisor's control
that `run` (src/runner.rs) branches on or reads.  `interactorStatus` is the
exit status of the spawned interactor process; it is part of the world so
that theorems can state how `run`'s result does (not) depend on it. -/
structure World where
  /-- `Uid::current().is_root()` -/
  isRoot : Bool
  /-- whether `fork()` succeeds -/
  forkOk : Bool
  /-- whether `wait4` returns a pid (`true`) or `-1` (`false`) -/
  waitOk : Bool
  status : WaitStatus
  rusage : Rusage
  /-- elapsed wall time since `start_time`, in ms -/
  elapsedMs : Int
  /-- exit status of the interactor process, when one was spawned -/
  interactorStatus : Int
  deriving DecidableEq, Repr

/-- Structure `RunResult` from src/runner.rs lines 13-27. -/
structure RunResult where
  cpu_time : Int
  real_time : Int
  memory : Int
  signal : Int
  exit_code : Int
  result : ErrorCode
  deriving DecidableEq, Repr

/-- Value `RunResult::default()`: all numeric fields 0, verdict `Success`. -/
def RunResult.zero : RunResult :=
  { cpu_time := 0, real_time := 0, memory := 0, signal := 0, exit_code := 0
    result := .Success }

/-- Observable trace of one call to `run`: whether a child process was
forked, whether the watchdog cancel flag was stored, and the returned
`RunResult`. -/
structure RunTrace where
  forkedChild : Bool
  cancelStored : Bool
  res : RunResult
  deriving DecidableEq, Repr

/-- The terminating signal as runner.rs computes it (lines 113-115):
`WTERMSIG` when `WIFSIGNALED`, otherwise the field keeps its default 0. -/
def sigOf (w : World) : Int :=
  if w.status.wifsignaled then w.status.wtermsig else 0

/-- The cpu time in ms as runner.rs computes it (lines 121-123):
`(ru_utime.tv_sec * 1000 + ru_utime.tv_usec / 1000) as i32`. -/
def cpuTimeOf (w : World) : Int :=
  toI32 (w.rusage.ru_utime_sec * 1000 + w.rusage.ru_utime_usec.tdiv 1000)

/-- The memory in bytes as runner.rs computes it (line 124):
`ru_maxrss * 1024`. -/
def memoryOf (w : World) : Int :=
  w.rusage.ru_maxrss * 1024

/-- Function `run` from src/runner.rs, parent side.  `interactor` records whether an
interactor path was supplied; the source spawns the interactor subprocess
and moves its handle into the watchdog closure, but never inspects its exit
status or output after `wait4`, so the returned trace does not depend on
`w.interactorStatus`.  The `Err(String)` paths of the source (log-file I/O
failures, pipe creation failure) are outside this model: the embedding
covers the `Ok(RunResult)` behaviour. -/
def run (config : Config) (interactor : Bool) (w : World) : RunTrace :=
  if w.isRoot = false then
    ⟨false, false, { RunResult.zero with result := .RootRequired }⟩
  else if config.check = false then
    ⟨false, false, { RunResult.zero with result := .InvalidConfig }⟩
  else if w.forkOk = false then
    ⟨false, false, { RunResult.zero with result := .ForkFailed }⟩
  else if w.waitOk = false then
    ⟨true, false, { RunResult.zero with result := .WaitFailed }⟩
  else
    let real_time := w.elapsedMs
    let signal := sigOf w
    if signal = SIGUSR1 then
      ⟨true, true,
        { RunResult.zero with
            real_time := real_time, signal := signal, result := .SystemError }⟩
    else
      let exit_code := w.status.wexitstatus
      let cpu_time := cpuTimeOf w
      let memory := memoryOf w
      let r1 : ErrorCode := if exit_code ≠ 0 then .RuntimeError else .Success
      let verdict : ErrorCode :=
        if signal = SIGSEGV then
          if config.max_memory ≠ -1 ∧ memory > config.max_memory then
            .MemoryLimitExceeded
          else
            .RuntimeError
        else
          let r2 := if signal ≠ 0 then .RuntimeError else r1
          let r3 := if config.max_memory ≠ -1 ∧ memory > config.max_memory then
            .MemoryLimitExceeded else r2
          let r4 := if config.max_real_time ≠ -1 ∧ real_time > config.max_real_time then
            .RealTimeLimitExceeded else r3
          if config.max_cpu_time ≠ -1 ∧ cpu_time > config.max_cpu_time then
            .CpuTimeLimitExceeded else r4
      ⟨true, true,
        { cpu_time := cpu_time, real_time := real_time, memory := memory,
          signal := signal, exit_code := exit_code, result := verdict }⟩

/-! ### Child setup: src/child.rs -/

/-- The `setrlimit` calls made by `child_process` (src/child.rs lines
22-61), in program order.  Each entry is a resource name together with the
value installed as both the soft and the hard limit. -/
def rlimit_settings (config : Config) : List (String × Int) :=
  (if config.max_stack ≠ -1 then
    [("RLIMIT_STACK", config.max_stack)] else []) ++
  (if config.max_memory ≠ -1 then
    [("RLIMIT_AS", config.max_memory * 2)] else []) ++
  (if config.max_cpu_time ≠ -1 then
    [("RLIMIT_CPU", config.max_cpu_time.tdiv 1000 + 1)] else []) ++
  (if config.max_process_number ≠ -1 then
    [("RLIMIT_NPROC", config.max_process_number)] else []) ++
  (if config.max_output_size ≠ -1 then
    [("RLIMIT_FSIZE", config.max_output_size)] else [])

/-- Model of `CString::new` on a byte string: fails exactly when the bytes contain
an interior NUL. -/
def cstring_new (s : List Nat) : Option (List Nat) :=
  if 0 ∈ s then none else some s

/-- Model of `CString::new(..).unwrap_or_default()` as used for each `args` / `env`
element in src/child.rs lines 123-132: an element with an interior NUL
byte is silently replaced by the empty C string. -/
def cstring_or_default (s : List Nat) : List Nat :=
  (cstring_new s).getD []

/-- The `execve` call issued by `child_process` (src/child.rs lines
122-133): `none` when `CString::new(config.exe_path)` fails (the child
aborts with `ExecveFailed` instead), otherwise the exact
(path, argv, envp) triple passed to the kernel. -/
def execve_call (config : Config) :
    Option (List Nat × List (List Nat) × List (List Nat)) :=
  match cstring_new config.exe_path with
  | none => none
  | some p => some (p, config.args.map cstring_or_default,
      config.env.map cstring_or_default)

/-- The exit status the parent observes through `WEXITSTATUS` when the
child aborts with `std::process::exit(e.to_i32())` (src/runner.rs lines
158-161): the kernel keeps the low 8 bits. -/
def childExitStatus (e : ErrorCode) : Int :=
  e.to_i32 % 256

/-! ### Seccomp policy: src/seccomp.rs -/

/-- Seccomp actions used by src/seccomp.rs. -/
inductive ScmpAction where
  | Allow
  | KillProcess
  deriving DecidableEq, Repr

/-- An argument comparison `ScmpArgCompare::new(arg, MaskedEqual(mask),
datum)`: the rule condition `(args[arg] & mask) == datum`.  All conditions
in src/seccomp.rs use the `MaskedEqual` operator. -/
structure ScmpArgCompare where
  arg : Nat
  mask : Nat
  datum : Nat
  deriving DecidableEq, Repr

/-- One rule added to a filter: an action for a syscall, guarded by zero or
more argument comparisons (`add_rule` / `add_rule_conditional`). -/
structure ScmpRule where
  action : ScmpAction
  syscall : String
  conds : List ScmpArgCompare
  deriving DecidableEq, Repr

/-- A loaded seccomp filter: the default action passed to
`ScmpFilterContext::new` plus the added rules in insertion order. -/
structure ScmpFilter where
  defaultAction : ScmpAction
  rules : List ScmpRule
  deriving DecidableEq, Repr

/-- Constant `libc::O_WRONLY` on Linux. -/
def O_WRONLY : Nat := 1

/-- Constant `libc::O_RDWR` on Linux. -/
def O_RDWR : Nat := 2

/-- Whether a rule fires on a given syscall invocation (name plus the
six u64 arguments, absent arguments read as 0). -/
def matchesRule (r : ScmpRule) (name : String) (args : List Nat) : Bool :=
  name == r.syscall &&
    r.conds.all (fun c => (args.getD c.arg 0 &&& c.mask) == c.datum)

/-- Kernel semantics of a loaded filter on one syscall invocation: the
action of the first matching rule, or the default action. -/
def evalFilter (f : ScmpFilter) (name : String) (args : List Nat) :
    ScmpAction :=
  match f.rules.find? (fun r => matchesRule r name args) with
  | some r => r.action
  | none => f.defaultAction

/-- The syscall whitelist of `c_cpp_seccomp_rules` (src/seccomp.rs lines
31-58), in source order. -/
def ccpp_whitelist : List String :=
  ["access", "arch_prctl", "brk", "clock_gettime", "close", "exit_group",
   "faccessat", "fstat", "futex", "getrandom", "lseek", "mmap", "mprotect",
   "munmap", "newfstatat", "pread64", "prlimit64", "read", "readlink",
   "readv", "rseq", "set_robust_list", "set_tid_address", "write", "writev",
   "execve"]

/-- Policy `c_cpp_seccomp_rules` from src/seccomp.rs lines 30-101: default action
`KillProcess`; unconditional `Allow` for the whitelist; with
`allow_write_file = false`, conditional `Allow` for `open` (argument 1) and
`openat` (argument 2) when `(flags & (O_WRONLY | O_RDWR)) == 0`; with
`allow_write_file = true`, unconditional `Allow` for `open`, `openat`,
`dup`, `dup2`, `dup3`. -/
def c_cpp_seccomp_rules (allow_write_file : Bool) : ScmpFilter :=
  { defaultAction := .KillProcess
    rules :=
      ccpp_whitelist.map (fun s => ⟨.Allow, s, []⟩) ++
      (if allow_write_file then
        ["open", "openat", "dup", "dup2", "dup3"].map
          (fun s => ⟨.Allow, s, []⟩)
      else
        [⟨.Allow, "open", [⟨1, O_WRONLY ||| O_RDWR, 0⟩]⟩,
         ⟨.Allow, "openat", [⟨2, O_WRONLY ||| O_RDWR, 0⟩]⟩]) }

/-! ### Concrete fixtures used by counterexamples and witnesses -/

/-- A valid baseline configuration (the limits of the hello-world test). -/
def cfgBase : Config :=
  { max_cpu_time := 1000, max_real_time := 2000, max_memory := 134217728,
    max_stack := 33554432, max_process_number := 200, max_output_size := 10000,
    exe_path := [117, 115, 101, 114], input_path := "user.in",
    output_path := "user.out", error_path := "user.err",
    args := [[117, 115, 101, 114]], env := [], log_path := "judger.log",
    seccomp_rule_name := some .CCpp, uid := 65534, gid := 65534 }

/-- An invalid configuration: `max_cpu_time = 0` is < 1 and ≠ −1. -/
def cfgInvalid : Config := { cfgBase with max_cpu_time := 0 }

/-- Baseline config with only a CPU budget (memory and real time unlimited). -/
def cfgCpuOnly : Config := { cfgBase with max_memory := -1, max_real_time := -1 }

/-- Baseline config with no CPU / real-time / memory budget. -/
def cfgNoLimits : Config :=
  { cfgBase with max_cpu_time := -1, max_real_time := -1, max_memory := -1 }

/-- Baseline config with `max_cpu_time = 1500` (not a multiple of 1000). -/
def cfg1500 : Config := { cfgBase with max_cpu_time := 1500 }

/-- Baseline config whose first argument contains an interior NUL byte. -/
def cfgNulArg : Config := { cfgBase with args := [[97, 0], [98]] }

/-- A well-behaved world: root, fork and wait succeed, guest exits 0 having
used 12 ms of cpu and 2 MiB, in 5 ms of wall time. -/
def wBase : World :=
  { isRoot := true, forkOk := true, waitOk := true,
    status := { wifsignaled := false, wtermsig := 0, wexitstatus := 0 },
    rusage := { ru_utime_sec := 0, ru_utime_usec := 12000, ru_maxrss := 2048 },
    elapsedMs := 5, interactorStatus := 0 }

/-- The well-behaved world as seen by a non-root caller. -/
def wNonRoot : World := { wBase with isRoot := false }

/-- A world where the guest is killed by SIGSEGV after 10 s of cpu time. -/
def wSegvCpu : World :=
  { wBase with
    status := { wifsignaled := true, wtermsig := 11, wexitstatus := 0 },
    rusage := { ru_utime_sec := 10, ru_utime_usec := 0, ru_maxrss := 1024 },
    elapsedMs := 50 }

/-- A world where the guest exits with status 249, the status produced by
`std::process::exit(ErrorCode::SetrlimitFailed.to_i32())`. -/
def wSetrlimitExit : World :=
  { wBase with status := { wifsignaled := false, wtermsig := 0, wexitstatus := 249 } }

/-- A world where the guest exits with status 248, the status produced by
`std::process::exit(ErrorCode::Dup2Failed.to_i32())`. -/
def wDup2Exit : World :=
  { wBase with status := { wifsignaled := false, wtermsig := 0, wexitstatus := 248 } }

/-- A world where the guest is terminated by SIGUSR1. -/
def wSigusr1 : World :=
  { wBase with status := { wifsignaled := true, wtermsig := 10, wexitstatus := 0 } }

/-- A world where `wait4` fails (returns −1). -/
def wWaitFail : World := { wBase with waitOk := false }

/-- A world where the guest exits normally after 2 s of cpu time. -/
def wCpuHeavy : World :=
  { wBase with rusage := { ru_utime_sec := 2, ru_utime_usec := 0, ru_maxrss := 1024 } }

/-- The well-behaved world with a given interactor exit status. -/
def wInter (s : Int) : World := { wBase with interactorStatus := s }

/-! ### Claims about the supervisor -/

/-- Claim C7: for every configuration — valid or not — a non-root caller
receives `RootRequired` and no child is forked; the root gate precedes
config validation. -/
theorem nonroot_root_required (config : Config) (interactor : Bool)
    (w : World) (h : w.isRoot = false) :
    run config interactor w =
      ⟨false, false, { RunResult.zero with result := .RootRequired }⟩ := by
  simp [run, h]

/-- Witness for C7, at an invalid configuration: the verdict is still
`RootRequired`, not `InvalidConfig`. -/
theorem nonroot_root_required_witness :
    run cfgInvalid false wNonRoot =
      ⟨false, false, { RunResult.zero with result := .RootRequired }⟩ :=
  nonroot_root_required cfgInvalid false wNonRoot rfl

/-- Claim C5: `Config::check` fails exactly when one of the five
positive-or-(−1) limits is < 1 and ≠ −1 or `max_stack` < 1, and a failing
configuration (run as root) yields `InvalidConfig` with no fork. -/
theorem check_false_iff_and_invalid_config (c : Config) (interactor : Bool)
    (w : World) :
    (c.check = false ↔
      ((c.max_cpu_time < 1 ∧ c.max_cpu_time ≠ -1) ∨
       (c.max_real_time < 1 ∧ c.max_real_time ≠ -1) ∨
       (c.max_memory < 1 ∧ c.max_memory ≠ -1) ∨
       (c.max_process_number < 1 ∧ c.max_process_number ≠ -1) ∨
       (c.max_output_size < 1 ∧ c.max_output_size ≠ -1) ∨
       c.max_stack < 1)) ∧
    (w.isRoot = true → c.check = false →
      run c interactor w =
        ⟨false, false, { RunResult.zero with result := .InvalidConfig }⟩) := by
  constructor
  · simp only [Config.check, Bool.not_eq_false']
    simp only [Bool.or_eq_true, Bool.and_eq_true, decide_eq_true_eq]
    tauto
  · intro hr hc
    simp [run, hr, hc]

/-- Witness for C5 at the concrete invalid configuration `cfgInvalid`. -/
theorem check_false_iff_and_invalid_config_witness :
    (cfgInvalid.check = false ↔
      ((cfgInvalid.max_cpu_time < 1 ∧ cfgInvalid.max_cpu_time ≠ -1) ∨
       (cfgInvalid.max_real_time < 1 ∧ cfgInvalid.max_real_time ≠ -1) ∨
       (cfgInvalid.max_memory < 1 ∧ cfgInvalid.max_memory ≠ -1) ∨
       (cfgInvalid.max_process_number < 1 ∧ cfgInvalid.max_process_number ≠ -1) ∨
       (cfgInvalid.max_output_size < 1 ∧ cfgInvalid.max_output_size ≠ -1) ∨
       cfgInvalid.max_stack < 1)) ∧
    (wBase.isRoot = true → cfgInvalid.check = false →
      run cfgInvalid false wBase =
        ⟨false, false, { RunResult.zero with result := .InvalidConfig }⟩) :=
  check_false_iff_and_invalid_config cfgInvalid false wBase

/-- Claim C2, counterexample: a SIGSEGV-terminated run that satisfies every
premise of the claim (wait succeeded, signal ≠ SIGUSR1, `max_cpu_time ≠ −1`,
computed cpu time 10000 ms > 1000 ms) is classified `RuntimeError`, not
`CpuTimeLimitExceeded`: the cpu-time rule is inside the non-SIGSEGV branch. -/
theorem cpu_rule_skipped_on_sigsegv_cex :
    wSegvCpu.waitOk = true ∧ sigOf wSegvCpu ≠ SIGUSR1 ∧
    sigOf wSegvCpu = SIGSEGV ∧ cfgCpuOnly.max_cpu_time = 1000 ∧
    cpuTimeOf wSegvCpu = 10000 ∧
    (run cfgCpuOnly false wSegvCpu).res.result = .RuntimeError ∧
    (run cfgCpuOnly false wSegvCpu).res.result ≠ .CpuTimeLimitExceeded := by
  decide

/-- Claim C2 as amended: for runs whose terminating signal is neither
SIGUSR1 nor SIGSEGV, the cpu-time rule is applied last, so a cpu-budget
overrun yields `CpuTimeLimitExceeded` whatever the earlier rules said. -/
theorem cpu_rule_overrides_when_not_sigsegv (c : Config) (interactor : Bool)
    (w : World) (hr : w.isRoot = true) (hc : c.check = true)
    (hf : w.forkOk = true) (hw : w.waitOk = true)
    (h1 : sigOf w ≠ SIGUSR1) (h2 : sigOf w ≠ SIGSEGV)
    (hcpu : c.max_cpu_time ≠ -1) (hgt : cpuTimeOf w > c.max_cpu_time) :
    (run c interactor w).res.result = .CpuTimeLimitExceeded := by
  simp [run, hr, hc, hf, hw, h1, h2, hcpu, hgt]

/-- Witness for the amended C2: a guest that exits normally after 2000 ms
of cpu against a 1000 ms budget is classified `CpuTimeLimitExceeded`. -/
theorem cpu_rule_overrides_when_not_sigsegv_witness :
    (run cfgBase false wCpuHeavy).res.result = .CpuTimeLimitExceeded :=
  cpu_rule_overrides_when_not_sigsegv cfgBase false wCpuHeavy rfl rfl rfl rfl
    (by decide) (by decide) (by decide) (by decide)

/-- Claim C9: a guest terminated by SIGUSR1 yields `SystemError` with
`signal = SIGUSR1`, while `cpu_time`, `memory` and `exit_code` keep their
default 0 (only `real_time` is assigned before the SIGUSR1 test). -/
theorem sigusr1_system_error_frame (c : Config) (interactor : Bool)
    (w : World) (hr : w.isRoot = true) (hc : c.check = true)
    (hf : w.forkOk = true) (hw : w.waitOk = true)
    (hs : sigOf w = SIGUSR1) :
    run c interactor w =
      ⟨true, true,
        { cpu_time := 0, real_time := w.elapsedMs, memory := 0,
          signal := SIGUSR1, exit_code := 0, result := .SystemError }⟩ := by
  simp [run, hr, hc, hf, hw, hs, RunResult.zero]

/-- Witness for C9 at a concrete SIGUSR1-terminated world. -/
theorem sigusr1_system_error_frame_witness :
    run cfgBase false wSigusr1 =
      ⟨true, true,
        { cpu_time := 0, real_time := wSigusr1.elapsedMs, memory := 0,
          signal := SIGUSR1, exit_code := 0, result := .SystemError }⟩ :=
  sigusr1_system_error_frame cfgBase false wSigusr1 rfl rfl rfl rfl (by decide)

/-- Claim C10: when `wait4` fails, `run` returns immediately with the
default result except `result = WaitFailed`; no real-time computation and
no watchdog cancellation happen (`cancelStored = false`). -/
theorem wait_failed_early_return (c : Config) (interactor : Bool) (w : World)
    (hr : w.isRoot = true) (hc : c.check = true) (hf : w.forkOk = true)
    (hw : w.waitOk = false) :
    run c interactor w =
      ⟨true, false, { RunResult.zero with result := .WaitFailed }⟩ := by
  simp [run, hr, hc, hf, hw]

/-- Witness for C10 at a concrete failing-wait world. -/
theorem wait_failed_early_return_witness :
    run cfgBase false wWaitFail =
      ⟨true, false, { RunResult.zero with result := .WaitFailed }⟩ :=
  wait_failed_early_return cfgBase false wWaitFail rfl rfl rfl rfl

/-- Claim C1 (code evaluation): in interactor mode, `run` never reads the
interactor's exit status or output channel — for every interactor exit
status `s`, a guest that would otherwise succeed is reported `Success`,
never `WrongAnswer`, although tests/interactor.rs expects
`WrongAnswer("wrong answer Query 1: ...")` for a failing interactor. -/
theorem run_ignores_interactor_status (s : Int) :
    (run cfgBase true (wInter s)).res.result = .Success ∧
    ∀ msg, (run cfgBase true (wInter s)).res.result ≠ .WrongAnswer msg :=
  ⟨rfl, fun _ h => ErrorCode.noConfusion h⟩

/-- Claim C4, counterexample: a child that aborts with
`exit(SetrlimitFailed.to_i32())` is observed as exit status 249 and
classified `RuntimeError`; the parent does not map the code back to
`SetrlimitFailed`. -/
theorem setup_exit_code_unmapped_cex :
    childExitStatus .SetrlimitFailed = 249 ∧
    (run cfgNoLimits false wSetrlimitExit).res.result = .RuntimeError ∧
    (run cfgNoLimits false wSetrlimitExit).res.result ≠ .SetrlimitFailed := by
  decide

/-- Claim C4 as amended: a child setup failure surfaces as a non-zero exit
status and is classified by the generic `exit_code ≠ 0` rule as
`RuntimeError` (here with no resource budget set, so no later rule
refines); no mapping back to the setup-error verdict occurs. -/
theorem setup_exit_classified_runtime_error (e : ErrorCode) (c : Config)
    (interactor : Bool) (w : World)
    (he : e ∈ [ErrorCode.SetrlimitFailed, .Dup2Failed, .SetuidFailed,
      .LoadSeccompFailed, .ExecveFailed])
    (hr : w.isRoot = true) (hc : c.check = true) (hf : w.forkOk = true)
    (hw : w.waitOk = true) (hsig : w.status.wifsignaled = false)
    (hex : w.status.wexitstatus = childExitStatus e)
    (hm : c.max_memory = -1) (hrt : c.max_real_time = -1)
    (hct : c.max_cpu_time = -1) :
    (run c interactor w).res.result = .RuntimeError := by
  have hne : childExitStatus e ≠ 0 := by
    fin_cases he <;> decide
  simp [run, hr, hc, hf, hw, sigOf, hsig, hex, hm, hrt, hct, hne,
    SIGUSR1, SIGSEGV]

/-- Witness for the amended C4: a `Dup2Failed` abort (exit status 248) is
classified `RuntimeError`. -/
theorem setup_exit_classified_runtime_error_witness :
    (run cfgNoLimits false wDup2Exit).res.result = .RuntimeError :=
  setup_exit_classified_runtime_error .Dup2Failed cfgNoLimits false wDup2Exit
    (by decide) rfl rfl rfl rfl rfl (by decide) rfl rfl rfl

/-! ### Claims about the child initializer -/

/-- Claim C3, counterexample: with `max_cpu_time = 1500` the child installs
`RLIMIT_CPU = 1500 / 1000 + 1 = 2` seconds (truncating division), not the
`ceil(1500 / 1000) + 1 = 3` seconds the claim states. -/
theorem rlimit_cpu_not_ceil_cex :
    cfg1500.max_cpu_time = 1500 ∧
    ("RLIMIT_CPU", 2) ∈ rlimit_settings cfg1500 ∧
    ("RLIMIT_CPU", 3) ∉ rlimit_settings cfg1500 := by
  decide

/-- Claim C3 as amended: for `max_cpu_time ≠ −1` the child sets both soft
and hard `RLIMIT_CPU` to `max_cpu_time / 1000 + 1` seconds with truncating
division (so 1500 ms gives 2 s, not 3 s). -/
theorem rlimit_cpu_floor_plus_one (c : Config) (h : c.max_cpu_time ≠ -1) :
    ("RLIMIT_CPU", c.max_cpu_time.tdiv 1000 + 1) ∈ rlimit_settings c := by
  simp [rlimit_settings, h]

/-- Witness for the amended C3 at `max_cpu_time = 1500`. -/
theorem rlimit_cpu_floor_plus_one_witness :
    ("RLIMIT_CPU", (1500 : Int).tdiv 1000 + 1) ∈ rlimit_settings cfg1500 :=
  rlimit_cpu_floor_plus_one cfg1500 (by decide)

/-- Claim C8, counterexample: an argument list element containing an
interior NUL byte is not passed through exactly — `CString::new(..)
.unwrap_or_default()` replaces it with the empty string. -/
theorem execve_nul_arg_cex :
    execve_call cfgNulArg =
      some (cfgNulArg.exe_path, [[], [98]], cfgNulArg.env) ∧
    execve_call cfgNulArg ≠
      some (cfgNulArg.exe_path, cfgNulArg.args, cfgNulArg.env) := by
  decide

/-- Helper: mapping `cstring_or_default` over NUL-free byte strings is the
identity. -/
theorem map_cstring_or_default_eq_self (l : List (List Nat))
    (h : ∀ a ∈ l, 0 ∉ a) : l.map cstring_or_default = l := by
  induction l with
  | nil => rfl
  | cons a t ih =>
    have ha : (0 : Nat) ∉ a := h a (List.mem_cons_self a t)
    simp only [List.map_cons, cstring_or_default, cstring_new, if_neg ha,
      Option.getD_some, List.cons.injEq, true_and]
    exact ih fun b hb => h b (List.mem_cons_of_mem a hb)

/-- Claim C8 as amended: when `exe_path` and every element of `args` and
`env` are free of interior NUL bytes, `execve` receives exactly the
configured path and the exact ordered `args` and `env` lists. -/
theorem execve_exact_without_nul (c : Config) (h1 : 0 ∉ c.exe_path)
    (h2 : ∀ a ∈ c.args, 0 ∉ a) (h3 : ∀ e ∈ c.env, 0 ∉ e) :
    execve_call c = some (c.exe_path, c.args, c.env) := by
  simp only [execve_call, cstring_new, if_neg h1,
    map_cstring_or_default_eq_self c.args h2,
    map_cstring_or_default_eq_self c.env h3]

/-- Witness for the amended C8 at the baseline configuration. -/
theorem execve_exact_without_nul_witness :
    execve_call cfgBase = some (cfgBase.exe_path, cfgBase.args, cfgBase.env) :=
  execve_exact_without_nul cfgBase (by decide) (by decide) (by decide)

/-! ### Claim about the seccomp policy -/

/-- Helper: a list of unconditional Allow rules finds a match exactly for
the listed syscall names. -/
theorem find_allow_of_mem (name : String) (args : List Nat)
    (l : List String) (h : name ∈ l) :
    (l.map (fun s => ({ action := .Allow, syscall := s, conds := [] } : ScmpRule))).find?
      (fun r => matchesRule r name args) = some ⟨.Allow, name, []⟩ := by
  induction l with
  | nil => cases h
  | cons a t ih =>
    by_cases ha : name = a
    · subst ha
      simp [List.find?_cons_of_pos, matchesRule]
    · rcases List.mem_cons.mp h with h | h
      · exact absurd h ha
      · rw [List.map_cons, List.find?_cons_of_neg, ih h]
        simp [matchesRule, ha]

/-- Helper: a list of unconditional Allow rules has no match when the name
is not listed. -/
theorem find_none_of_not_mem (name : String) (args : List Nat)
    (l : List String) (h : name ∉ l) :
    (l.map (fun s => ({ action := .Allow, syscall := s, conds := [] } : ScmpRule))).find?
      (fun r => matchesRule r name args) = none := by
  induction l with
  | nil => rfl
  | cons a t ih =>
    rw [List.map_cons, List.find?_cons_of_neg, ih (fun hm => h (List.mem_cons_of_mem a hm))]
    simp only [matchesRule, List.all_nil, Bool.and_true]
    simp only [beq_iff_eq]
    exact fun he => h (he ▸ List.mem_cons_self a t)

/-- Claim C6: the CCpp policy has default action KillProcess, its
unconditional Allow rules cover exactly the 26 whitelisted syscalls, and a
syscall is allowed iff it is whitelisted or is `open` / `openat` with
`(flags & (O_WRONLY | O_RDWR)) == 0`, where flags is argument 1 of `open`
and argument 2 of `openat`; every other syscall or flag combination gets
the default KillProcess. -/
theorem ccpp_policy_characterization (name : String) (args : List Nat) :
    (c_cpp_seccomp_rules false).defaultAction = .KillProcess ∧
    (((c_cpp_seccomp_rules false).rules.filter
        (fun r => r.conds.isEmpty)).map (fun r => r.syscall) = ccpp_whitelist) ∧
    evalFilter (c_cpp_seccomp_rules false) name args =
      (if name ∈ ccpp_whitelist ∨
          (name = "open" ∧ args.getD 1 0 &&& (O_WRONLY ||| O_RDWR) = 0) ∨
          (name = "openat" ∧ args.getD 2 0 &&& (O_WRONLY ||| O_RDWR) = 0)
        then .Allow else .KillProcess) := by
  refine ⟨rfl, by decide, ?_⟩
  unfold evalFilter c_cpp_seccomp_rules
  simp only [Bool.false_eq_true, if_false, List.find?_append]
  by_cases hn : name ∈ ccpp_whitelist
  · rw [find_allow_of_mem name args _ hn]
    simp [hn]
  · rw [find_none_of_not_mem name args _ hn]
    simp only [Option.none_or]
    by_cases ho : name = "open"
    · subst ho
      have hnw : ("open" : String) ∉ ccpp_whitelist := by decide
      by_cases hc : args[1]?.getD 0 &&& (O_WRONLY ||| O_RDWR) = 0
      · rw [List.find?_cons_of_pos]
        · simp [hnw, hc]
        · simp [matchesRule, hc]
      · rw [List.find?_cons_of_neg, List.find?_cons_of_neg]
        · simp [hnw, hc]
        · simp [matchesRule]
        · simp [matchesRule, hc]
    · by_cases hoa : name = "openat"
      · subst hoa
        have hnw : ("openat" : String) ∉ ccpp_whitelist := by decide
        by_cases hc : args[2]?.getD 0 &&& (O_WRONLY ||| O_RDWR) = 0
        · rw [List.find?_cons_of_neg, List.find?_cons_of_pos]
          · simp [hnw, hc]
          · simp [matchesRule, hc]
          · simp [matchesRule]
        · rw [List.find?_cons_of_neg, List.find?_cons_of_neg]
          · simp [hnw, hc]
          · simp [matchesRule, hc]
          · simp [matchesRule]
      · rw [List.find?_cons_of_neg, List.find?_cons_of_neg]
        · simp [hn, ho, hoa]
        · simp [matchesRule, hoa]
        · simp [matchesRule, ho]

end Judger
